import Mathlib

/-!
# Texture transfer layer of `taichi/program/texture.cpp`

A shallow embedding of `taichi::lang::Texture`: its two constructors, the
format table `Texture::get_format`, the two transfer operations
`from_ndarray` and `from_snode` (with `get_device_ptr`) and the destructor.

Conventions of the embedding.

* C++ `int` values are `Int`; no arithmetic is performed on them by this code.
  The parameter structs `ImageParams` and `BufferImageCopyParams` are declared
  in `taichi/rhi/device.h`, outside these sources; their fields hold the
  values the code assigns to them.
* A fatal failure (`TI_ASSERT`, `TI_ERROR`, a call through a null `prog_`, a
  failure raised by the device) is a value of `Fatal`; a stateful operation
  returns its outcome together with the world it leaves behind, so that what
  happened before a failure stays observable.
* The engine and the graphics device are collaborators declared in headers
  that are not part of these sources.  Every call the code makes on them is
  appended to `World.trace` as an `Event`; the values they hand back come from
  counters and lookup tables of the `World`, over which all theorems quantify.
* Pointers that the code dereferences without ever testing them (`prog` of the
  owning constructor, `ndarray`, `snode`, `snode->parent`, the device) are
  plain values.  The member `prog_`, which the destructor does test, is an
  `Option`.
-/

namespace taichi.lang

/-! ## Data model -/

/-- Element kinds.  `get_format` compares its argument with the four primitive
kinds below; `other` stands for every remaining `DataType`. -/
inductive DataType where
  | f16
  | u16
  | u8
  | f32
  | other (tag : Nat)
  deriving DecidableEq

/-- The `BufferFormat` values that `get_format` can produce. -/
inductive BufferFormat where
  | r8 | rg8 | rgba8
  | r16 | rg16 | rgba16
  | r16f | rg16f | rgba16f
  | r32f | rg32f | rgb32f | rgba32f
  deriving DecidableEq

/-- The two image dimensions chosen by the owning constructor. -/
inductive ImageDimension where
  | d2D
  | d3D
  deriving DecidableEq

/-- The image layouts named by this code. -/
inductive ImageLayout where
  | undefined
  | transfer_dst
  deriving DecidableEq

/-- The ways in which the code of `texture.cpp` stops fatally. -/
inductive Fatal where
  /-- `TI_ASSERT(num_channels > 0 && num_channels <= 4)` -/
  | assert_num_channels
  /-- `TI_ASSERT(snode->is_path_all_dense)` -/
  | assert_is_path_all_dense
  /-- `TI_ERROR("Invalid texture channels")` -/
  | invalid_texture_channels
  /-- `TI_ERROR("Invalid texture dtype")` -/
  | invalid_texture_dtype
  /-- A member call through `prog_` while `prog_` is null. -/
  | null_prog
  /-- The device refused `create_image`. -/
  | create_image_failed
  deriving DecidableEq

/-- Handle of a device buffer or image. -/
structure DeviceAllocation where
  device : Nat
  alloc_id : Nat
  deriving DecidableEq

/-- An allocation together with an offset into it. -/
structure DevicePtr extends DeviceAllocation where
  offset : Nat
  deriving DecidableEq

/-- Modelled from the spec: the offset accessor of a resource handle
(`get_ptr`, declared in `taichi/rhi/device.h`, which is not part of these
sources): a handle to the sub-region of the allocation at `offset`. -/
def DeviceAllocation.get_ptr (a : DeviceAllocation) (offset : Nat) : DevicePtr :=
  { a with offset := offset }

/-- The fields of `ImageParams` that the owning constructor assigns. -/
structure ImageParams where
  dimension : ImageDimension
  format : BufferFormat
  x : Int
  y : Int
  z : Int
  initial_layout : ImageLayout
  deriving DecidableEq

/-- The member `image_extent` of `BufferImageCopyParams`. -/
structure ImageExtent where
  x : Int
  y : Int
  z : Int
  deriving DecidableEq

/-- The fields of `BufferImageCopyParams` that the transfer operations
assign. -/
structure BufferImageCopyParams where
  buffer_row_length : Int
  buffer_image_height : Int
  image_mip_level : Int
  image_extent : ImageExtent
  deriving DecidableEq

/-- A synchronization token returned by `Program::flush`. -/
structure StreamSemaphore where
  id : Nat
  deriving DecidableEq

/-- The graphics device of a program. -/
structure GraphicsDevice where
  id : Nat
  deriving DecidableEq

/-- An execution queue of a device. -/
structure Stream where
  device : Nat
  deriving DecidableEq

/-- A command list handed out by a stream. -/
structure CommandList where
  id : Nat
  deriving DecidableEq

/-- The engine: its identity and the graphics device it answers with. -/
structure Program where
  id : Nat
  graphics_device : GraphicsDevice
  deriving DecidableEq

/-- What `buffer_barrier` is called with: `from_ndarray` passes the array's
allocation, `from_snode` passes a device pointer. -/
inductive BarrierArg where
  | alloc (a : DeviceAllocation)
  | ptr (p : DevicePtr)
  deriving DecidableEq

/-- The calls that `texture.cpp` makes on the engine, the device, its compute
stream and a command list, in the order in which they are made. -/
inductive Event where
  | flush (prog : Nat) (semaphore : StreamSemaphore)
  | create_image (device : Nat) (params : ImageParams) (result : Option DeviceAllocation)
  | destroy_image (device : Nat) (img : DeviceAllocation)
  | get_snode_tree_device_ptr (prog : Nat) (tree_id : Int)
  | get_field_in_tree_offset (prog : Nat) (tree_id : Int) (snode : Nat)
  | new_command_list (stream : Stream) (cmdlist : CommandList)
  | buffer_barrier (cmdlist : CommandList) (src : BarrierArg)
  | image_transition (cmdlist : CommandList) (img : DeviceAllocation)
      (old_layout new_layout : ImageLayout)
  | buffer_to_image (cmdlist : CommandList) (dst_img : DeviceAllocation) (src_buf : DevicePtr)
      (img_layout : ImageLayout) (params : BufferImageCopyParams)
  | submit_synced (stream : Stream) (cmdlist : CommandList) (wait : List StreamSemaphore)
  deriving DecidableEq

/-- Everything outside the Texture: the calls made so far, the supplies of
fresh tokens, command lists and image handles, and the answers of the
collaborators (which images the backend accepts, where the engine keeps a
tree and a field). -/
structure World where
  trace : List Event
  next_semaphore : Nat
  next_cmdlist : Nat
  next_alloc : Nat
  image_supported : Nat → ImageParams → Bool
  snode_tree_device_ptr : Nat → Int → DevicePtr
  field_in_tree_offset : Nat → Int → Nat → Nat

/-- Append one call to the trace. -/
def World.log (w : World) (e : Event) : World :=
  { w with trace := w.trace ++ [e] }

/-! ## Collaborators -/

/-- `Program::get_graphics_device`. -/
def Program.get_graphics_device (prog : Program) : GraphicsDevice :=
  prog.graphics_device

/-- Modelled from the spec: `flush() -> SyncToken` of the engine
(`taichi/program/program.h` is not part of these sources): flushes the
outstanding compute work and returns a token for it. -/
def Program.flush (prog : Program) (w : World) : StreamSemaphore × World :=
  let semaphore : StreamSemaphore := ⟨w.next_semaphore⟩
  (semaphore, { w.log (.flush prog.id semaphore) with next_semaphore := w.next_semaphore + 1 })

/-- Modelled from the spec: the engine's lookup of the device pointer that
backs an SNode tree. -/
def Program.get_snode_tree_device_ptr (prog : Program) (tree_id : Int) (w : World) :
    DevicePtr × World :=
  (w.snode_tree_device_ptr prog.id tree_id, w.log (.get_snode_tree_device_ptr prog.id tree_id))

/-- Modelled from the spec: the engine's lookup of a field's byte offset
inside its tree. -/
def Program.get_field_in_tree_offset (prog : Program) (tree_id : Int) (snode : Nat) (w : World) :
    Nat × World :=
  (w.field_in_tree_offset prog.id tree_id snode,
    w.log (.get_field_in_tree_offset prog.id tree_id snode))

/-- Modelled from the spec: `create_image(params) -> Handle` of the device
(`taichi/rhi/device.h` is not part of these sources): fails if the backend
does not support the parameters, otherwise allocates and returns a new
handle. -/
def GraphicsDevice.create_image (device : GraphicsDevice) (params : ImageParams) (w : World) :
    Except Fatal DeviceAllocation × World :=
  if w.image_supported device.id params then
    let img : DeviceAllocation := ⟨device.id, w.next_alloc⟩
    (.ok img, { w.log (.create_image device.id params (some img)) with
                  next_alloc := w.next_alloc + 1 })
  else
    (.error .create_image_failed, w.log (.create_image device.id params none))

/-- Modelled from the spec: `destroy_image(Handle)` of the device. -/
def GraphicsDevice.destroy_image (device : GraphicsDevice) (img : DeviceAllocation) (w : World) :
    World :=
  w.log (.destroy_image device.id img)

/-- Modelled from the spec: `get_compute_stream() -> Stream`, the same stream
for the whole life of the device. -/
def GraphicsDevice.get_compute_stream (device : GraphicsDevice) : Stream :=
  ⟨device.id⟩

/-- Modelled from the spec: `new_command_list() -> CommandList`, a fresh,
empty recorder. -/
def Stream.new_command_list (stream : Stream) (w : World) : CommandList × World :=
  let cmdlist : CommandList := ⟨w.next_cmdlist⟩
  (cmdlist, { w.log (.new_command_list stream cmdlist) with next_cmdlist := w.next_cmdlist + 1 })

/-- Modelled from the spec: `buffer_barrier(Handle)` recorded on a command
list. -/
def CommandList.buffer_barrier (cmdlist : CommandList) (src : BarrierArg) (w : World) : World :=
  w.log (.buffer_barrier cmdlist src)

/-- Modelled from the spec: `image_transition(Handle, from_layout, to_layout)`
recorded on a command list. -/
def CommandList.image_transition (cmdlist : CommandList) (img : DeviceAllocation)
    (old_layout new_layout : ImageLayout) (w : World) : World :=
  w.log (.image_transition cmdlist img old_layout new_layout)

/-- Modelled from the spec: `buffer_to_image(dst_image, src_ptr, dst_layout,
copy_params)` recorded on a command list. -/
def CommandList.buffer_to_image (cmdlist : CommandList) (dst_img : DeviceAllocation)
    (src_buf : DevicePtr) (img_layout : ImageLayout) (params : BufferImageCopyParams)
    (w : World) : World :=
  w.log (.buffer_to_image cmdlist dst_img src_buf img_layout params)

/-- Modelled from the spec: `submit_synced(CommandList, wait_tokens)` of a
stream. -/
def Stream.submit_synced (stream : Stream) (cmdlist : CommandList) (wait : List StreamSemaphore)
    (w : World) : World :=
  w.log (.submit_synced stream cmdlist wait)

/-! ## Sources of a transfer -/

/-- The members of `Ndarray` read by `from_ndarray`.  The protocol reads
`shape[0]` and `shape[1]` without a check; an array source declares at least
these two leading dimensions. -/
structure Ndarray where
  ndarray_alloc_ : DeviceAllocation
  shape : List Int
  two_le_dims : 2 ≤ shape.length

/-- The node two levels above a field, `snode->parent->parent`, of which the
code reads the tree id. -/
structure SNodeRoot where
  snode_tree_id_ : Int

/-- `SNode::get_snode_tree_id`. -/
def SNodeRoot.get_snode_tree_id (root : SNodeRoot) : Int :=
  root.snode_tree_id_

/-- The node above a field, `snode->parent`. -/
structure SNodeParent where
  parent : SNodeRoot

/-- The members of a field's `SNode` read by `from_snode` and
`get_device_ptr`; `id` stands for the node's identity. -/
structure SNode where
  id : Nat
  parent : SNodeParent
  is_path_all_dense : Bool
  shape_along_axis : Int → Int

/-! ## Texture -/

/-- The members of `Texture`. -/
structure Texture where
  texture_alloc_ : DeviceAllocation
  dtype_ : DataType
  num_channels_ : Int
  width_ : Int
  height_ : Int
  depth_ : Int
  prog_ : Option Program
  format_ : BufferFormat
  deriving DecidableEq

/-- `Texture::get_format`. -/
def Texture.get_format (type : DataType) (num_channels : Int) : Except Fatal BufferFormat :=
  if type = DataType.f16 then
    if num_channels = 1 then .ok .r16f
    else if num_channels = 2 then .ok .rg16f
    else if num_channels = 4 then .ok .rgba16f
    else .error .invalid_texture_channels
  else if type = DataType.u16 then
    if num_channels = 1 then .ok .r16
    else if num_channels = 2 then .ok .rg16
    else if num_channels = 4 then .ok .rgba16
    else .error .invalid_texture_channels
  else if type = DataType.u8 then
    if num_channels = 1 then .ok .r8
    else if num_channels = 2 then .ok .rg8
    else if num_channels = 4 then .ok .rgba8
    else .error .invalid_texture_channels
  else if type = DataType.f32 then
    if num_channels = 1 then .ok .r32f
    else if num_channels = 2 then .ok .rg32f
    else if num_channels = 3 then .ok .rgb32f
    else if num_channels = 4 then .ok .rgba32f
    else .error .invalid_texture_channels
  else
    .error .invalid_texture_dtype

/-- The owning constructor `Texture::Texture(Program *prog, ...)`. -/
def Texture.mk_owning (prog : Program) (type : DataType)
    (num_channels width height depth : Int) (w : World) : Except Fatal Texture × World :=
  let device := prog.get_graphics_device
  if ¬ (num_channels > 0 ∧ num_channels ≤ 4) then
    (.error .assert_num_channels, w)
  else
    match Texture.get_format type num_channels with
    | .error e => (.error e, w)
    | .ok format =>
      let img_params : ImageParams :=
        { dimension := if depth > 1 then ImageDimension.d3D else ImageDimension.d2D
          format := format
          x := width
          y := height
          z := depth
          initial_layout := ImageLayout.undefined }
      match device.create_image img_params w with
      | (.error e, w1) => (.error e, w1)
      | (.ok texture_alloc, w1) =>
        (.ok { texture_alloc_ := texture_alloc
               dtype_ := type
               num_channels_ := num_channels
               width_ := width
               height_ := height
               depth_ := depth
               prog_ := some prog
               format_ := img_params.format }, w1)

/-- Modelled from the spec: the default of the member `prog_`, declared in
`taichi/program/texture.h`, which is not part of these sources.  The
non-owning case retains no reference to the engine or the device, and the
destructor tests `prog_` before using it: the default is null. -/
def Texture.prog_default : Option Program :=
  none

/-- The wrapping constructor `Texture::Texture(DeviceAllocation &devalloc,
...)`.  Its initializer list does not name `prog_`, which keeps its
default. -/
def Texture.mk_wrapping (devalloc : DeviceAllocation) (type : DataType)
    (num_channels width height depth : Int) : Except Fatal Texture :=
  match Texture.get_format type num_channels with
  | .error e => .error e
  | .ok format =>
    .ok { texture_alloc_ := devalloc
          dtype_ := type
          num_channels_ := num_channels
          width_ := width
          height_ := height
          depth_ := depth
          prog_ := Texture.prog_default
          format_ := format }

/-! ## Transfer operations -/

/-- The array's size along one of its two leading dimensions, `shape[i]`. -/
def Ndarray.shape_at (ndarray : Ndarray) (i : Fin 2) : Int :=
  ndarray.shape.get ⟨i.val, Nat.lt_of_lt_of_le i.isLt ndarray.two_le_dims⟩

/-- `Texture::from_ndarray`. -/
def Texture.from_ndarray (t : Texture) (ndarray : Ndarray) (w : World) :
    Except Fatal Unit × World :=
  match t.prog_ with
  | none => (.error .null_prog, w)
  | some prog_ =>
    let (semaphore, w1) := prog_.flush w
    let device := prog_.get_graphics_device
    let stream := device.get_compute_stream
    let (cmdlist, w2) := stream.new_command_list w1
    let params : BufferImageCopyParams :=
      { buffer_row_length := ndarray.shape_at 0
        buffer_image_height := ndarray.shape_at 1
        image_mip_level := 0
        image_extent := { x := t.width_, y := t.height_, z := t.depth_ } }
    let w3 := cmdlist.buffer_barrier (.alloc ndarray.ndarray_alloc_) w2
    let w4 := cmdlist.image_transition t.texture_alloc_ .undefined .transfer_dst w3
    let w5 := cmdlist.buffer_to_image t.texture_alloc_ (ndarray.ndarray_alloc_.get_ptr 0)
      .transfer_dst params w4
    (.ok (), stream.submit_synced cmdlist [semaphore] w5)

/-- `get_device_ptr`. -/
def get_device_ptr (program : Program) (snode : SNode) (w : World) : DevicePtr × World :=
  let dense_parent := snode.parent
  let root := dense_parent.parent
  let tree_id := root.get_snode_tree_id
  let (root_ptr, w1) := program.get_snode_tree_device_ptr tree_id w
  let (offset, w2) := program.get_field_in_tree_offset tree_id snode.id w1
  (root_ptr.toDeviceAllocation.get_ptr offset, w2)

/-- `Texture::from_snode`. -/
def Texture.from_snode (t : Texture) (snode : SNode) (w : World) : Except Fatal Unit × World :=
  match t.prog_ with
  | none => (.error .null_prog, w)
  | some prog_ =>
    let (semaphore, w1) := prog_.flush w
    if ¬ (snode.is_path_all_dense = true) then
      (.error .assert_is_path_all_dense, w1)
    else
      let device := prog_.get_graphics_device
      let (devptr, w2) := get_device_ptr prog_ snode w1
      let stream := device.get_compute_stream
      let (cmdlist, w3) := stream.new_command_list w2
      let params : BufferImageCopyParams :=
        { buffer_row_length := snode.shape_along_axis 0
          buffer_image_height := snode.shape_along_axis 1
          image_mip_level := 0
          image_extent := { x := t.width_, y := t.height_, z := t.depth_ } }
      let w4 := cmdlist.buffer_barrier (.ptr devptr) w3
      let w5 := cmdlist.image_transition t.texture_alloc_ .undefined .transfer_dst w4
      let w6 := cmdlist.buffer_to_image t.texture_alloc_ devptr .transfer_dst params w5
      (.ok (), stream.submit_synced cmdlist [semaphore] w6)

/-- The destructor `Texture::~Texture`. -/
def Texture.destructor (t : Texture) (w : World) : World :=
  match t.prog_ with
  | some prog_ => prog_.get_graphics_device.destroy_image t.texture_alloc_ w
  | none => w

/-! ## Vocabulary of the statements -/

/-- The format table of the specification: kind, channel count, format. -/
def format_table : List (DataType × Int × BufferFormat) :=
  [ (.f16, 1, .r16f), (.f16, 2, .rg16f), (.f16, 4, .rgba16f),
    (.u16, 1, .r16), (.u16, 2, .rg16), (.u16, 4, .rgba16),
    (.u8, 1, .r8), (.u8, 2, .rg8), (.u8, 4, .rgba8),
    (.f32, 1, .r32f), (.f32, 2, .rg32f), (.f32, 3, .rgb32f), (.f32, 4, .rgba32f) ]

/-- The parameters the owning constructor hands to `create_image`. -/
def Texture.img_params (format : BufferFormat) (width height depth : Int) : ImageParams :=
  { dimension := if depth > 1 then ImageDimension.d3D else ImageDimension.d2D
    format := format
    x := width
    y := height
    z := depth
    initial_layout := ImageLayout.undefined }

/-- The command list an event records on, creates or submits, if any. -/
def Event.cmdlist? : Event → Option CommandList
  | .new_command_list _ c => some c
  | .buffer_barrier c _ => some c
  | .image_transition c _ _ _ => some c
  | .buffer_to_image c _ _ _ _ => some c
  | .submit_synced _ c _ => some c
  | _ => none

/-- Whether an event records one of the three transfer operations on the
command list `c`. -/
def Event.records_on (c : CommandList) : Event → Bool
  | .buffer_barrier c1 _ => c1 = c
  | .image_transition c1 _ _ _ => c1 = c
  | .buffer_to_image c1 _ _ _ _ => c1 = c
  | _ => false

/-- Whether an event is one of the engine's two address lookups. -/
def Event.is_lookup : Event → Bool
  | .get_snode_tree_device_ptr _ _ => true
  | .get_field_in_tree_offset _ _ _ => true
  | _ => false

/-- Whether an event is a flush of the engine. -/
def Event.is_flush : Event → Bool
  | .flush _ _ => true
  | _ => false

/-- Whether an event is a synced submission. -/
def Event.is_submit_synced : Event → Bool
  | .submit_synced _ _ _ => true
  | _ => false

/-- The calls made between the world `w` and a later world `w1`. -/
def World.calls_since (w w1 : World) : List Event :=
  w1.trace.drop w.trace.length

/-- Every command list met in the trace was handed out by the supply. -/
def World.cmdlists_known (w : World) : Prop :=
  ∀ e ∈ w.trace, ∀ c, e.cmdlist? = some c → c.id < w.next_cmdlist

/-- The data-model invariant of the specification: channel count in [1,4],
the (kind, channel count) pair maps to the stored format, and depth, height
and width are positive. -/
def Texture.invariant (t : Texture) : Prop :=
  (1 ≤ t.num_channels_ ∧ t.num_channels_ ≤ 4) ∧
  Texture.get_format t.dtype_ t.num_channels_ = .ok t.format_ ∧
  0 < t.depth_ ∧ 0 < t.height_ ∧ 0 < t.width_

/-- A world with nothing done yet, a backend that accepts every image and an
engine that keeps every tree at allocation 9 of device 0. -/
def World.initial : World :=
  { trace := []
    next_semaphore := 0
    next_cmdlist := 0
    next_alloc := 0
    image_supported := fun _ _ => true
    snode_tree_device_ptr := fun _ _ => { device := 0, alloc_id := 9, offset := 0 }
    field_in_tree_offset := fun _ _ _ => 128 }

/-- A program on device 0. -/
def Program.sample : Program :=
  { id := 1, graphics_device := { id := 0 } }

/-- A 3 x 5 array in allocation 2 of device 0. -/
def Ndarray.sample : Ndarray :=
  { ndarray_alloc_ := { device := 0, alloc_id := 2 }
    shape := [3, 5]
    two_le_dims := by decide }

/-- A dense 3 x 5 field of tree 0. -/
def SNode.sample_dense : SNode :=
  { id := 4
    parent := { parent := { snode_tree_id_ := 0 } }
    is_path_all_dense := true
    shape_along_axis := fun i => if i = 0 then 3 else 5 }

/-- A field of tree 0 with a sparse ancestor. -/
def SNode.sample_sparse : SNode :=
  { SNode.sample_dense with is_path_all_dense := false }

/-- A texture as the owning constructor leaves it, on image 7 of device 0. -/
def Texture.sample_owned : Texture :=
  { texture_alloc_ := { device := 0, alloc_id := 7 }
    dtype_ := .f32
    num_channels_ := 4
    width_ := 64
    height_ := 64
    depth_ := 1
    prog_ := some Program.sample
    format_ := .rgba32f }

/-! ## Lemmas on the format table -/

theorem get_format_ok_iff (type : DataType) (n : Int) (fmt : BufferFormat) :
    Texture.get_format type n = .ok fmt ↔ (type, n, fmt) ∈ format_table := by
  unfold Texture.get_format format_table
  cases type <;> simp <;> split_ifs <;> simp_all <;> exact eq_comm

theorem get_format_ok_channels {type : DataType} {n : Int} {fmt : BufferFormat}
    (h : Texture.get_format type n = .ok fmt) : 0 < n ∧ n ≤ 4 := by
  have hmem := (get_format_ok_iff type n fmt).mp h
  simp [format_table] at hmem
  omega

theorem get_format_error_of_channels (type : DataType) (n : Int) (hn : ¬ (0 < n ∧ n ≤ 4)) :
    Texture.get_format type n = .error .invalid_texture_channels ∨
    Texture.get_format type n = .error .invalid_texture_dtype := by
  unfold Texture.get_format
  split_ifs <;> first | (exfalso; omega) | simp

theorem get_format_error_cases {type : DataType} {n : Int} {e : Fatal}
    (h : Texture.get_format type n = .error e) :
    e = .invalid_texture_channels ∨ e = .invalid_texture_dtype := by
  unfold Texture.get_format at h
  split_ifs at h <;> simp_all

/-! ## Lemmas on the owning constructor -/

theorem mk_owning_of_format (prog : Program) (type : DataType) (n width height depth : Int)
    (w : World) (fmt : BufferFormat) (hfmt : Texture.get_format type n = .ok fmt) :
    Texture.mk_owning prog type n width height depth w =
      if w.image_supported prog.graphics_device.id (Texture.img_params fmt width height depth) then
        (.ok { texture_alloc_ := ⟨prog.graphics_device.id, w.next_alloc⟩
               dtype_ := type
               num_channels_ := n
               width_ := width
               height_ := height
               depth_ := depth
               prog_ := some prog
               format_ := fmt },
         { w.log (.create_image prog.graphics_device.id
                    (Texture.img_params fmt width height depth)
                    (some ⟨prog.graphics_device.id, w.next_alloc⟩)) with
             next_alloc := w.next_alloc + 1 })
      else
        (.error .create_image_failed,
         w.log (.create_image prog.graphics_device.id
                  (Texture.img_params fmt width height depth) none)) := by
  have hn := get_format_ok_channels hfmt
  unfold Texture.mk_owning
  simp only [gt_iff_lt, hn, and_self, not_true_eq_false, if_false, hfmt,
    GraphicsDevice.create_image, Program.get_graphics_device, Texture.img_params]
  split_ifs <;> rfl

theorem mk_owning_of_bad_channels (prog : Program) (type : DataType)
    (n width height depth : Int) (w : World) (hn : ¬ (0 < n ∧ n ≤ 4)) :
    Texture.mk_owning prog type n width height depth w = (.error .assert_num_channels, w) := by
  unfold Texture.mk_owning
  simp only [gt_iff_lt, hn, not_false_eq_true, if_true]

theorem mk_owning_of_format_error (prog : Program) (type : DataType)
    (n width height depth : Int) (w : World) (e : Fatal) (hn : 0 < n ∧ n ≤ 4)
    (hfmt : Texture.get_format type n = .error e) :
    Texture.mk_owning prog type n width height depth w = (.error e, w) := by
  unfold Texture.mk_owning
  simp only [gt_iff_lt, hn, and_self, not_true_eq_false, if_false, hfmt]

theorem mk_owning_ok_inv {prog : Program} {type : DataType} {n width height depth : Int}
    {w w1 : World} {t : Texture}
    (h : Texture.mk_owning prog type n width height depth w = (.ok t, w1)) :
    ∃ fmt, Texture.get_format type n = .ok fmt ∧
      w.image_supported prog.graphics_device.id (Texture.img_params fmt width height depth) = true ∧
      t = { texture_alloc_ := ⟨prog.graphics_device.id, w.next_alloc⟩
            dtype_ := type
            num_channels_ := n
            width_ := width
            height_ := height
            depth_ := depth
            prog_ := some prog
            format_ := fmt } ∧
      w1.trace = w.trace ++ [.create_image prog.graphics_device.id
                    (Texture.img_params fmt width height depth)
                    (some ⟨prog.graphics_device.id, w.next_alloc⟩)] := by
  by_cases hn : 0 < n ∧ n ≤ 4
  · cases hfmt : Texture.get_format type n with
    | error e =>
      rw [mk_owning_of_format_error prog type n width height depth w e hn hfmt] at h
      simp at h
    | ok fmt =>
      rw [mk_owning_of_format prog type n width height depth w fmt hfmt] at h
      refine ⟨fmt, rfl, ?_⟩
      split_ifs at h with hs
      · simp only [Prod.mk.injEq, Except.ok.injEq] at h
        obtain ⟨ht, hw⟩ := h
        exact ⟨hs, ht.symm, by rw [← hw]; rfl⟩
      · simp at h
  · rw [mk_owning_of_bad_channels prog type n width height depth w hn] at h
    simp at h

theorem mk_wrapping_ok_inv {devalloc : DeviceAllocation} {type : DataType}
    {n width height depth : Int} {t : Texture}
    (h : Texture.mk_wrapping devalloc type n width height depth = .ok t) :
    ∃ fmt, Texture.get_format type n = .ok fmt ∧
      t = { texture_alloc_ := devalloc
            dtype_ := type
            num_channels_ := n
            width_ := width
            height_ := height
            depth_ := depth
            prog_ := none
            format_ := fmt } := by
  unfold Texture.mk_wrapping at h
  cases hfmt : Texture.get_format type n with
  | error e => simp [hfmt] at h
  | ok fmt =>
    simp only [hfmt, Except.ok.injEq] at h
    exact ⟨fmt, rfl, h.symm⟩

/-! ## Lemmas on the transfer operations -/

theorem from_ndarray_of_null (t : Texture) (ndarray : Ndarray) (w : World)
    (h : t.prog_ = none) : t.from_ndarray ndarray w = (.error .null_prog, w) := by
  unfold Texture.from_ndarray
  simp only [h]

theorem from_snode_of_null (t : Texture) (snode : SNode) (w : World)
    (h : t.prog_ = none) : t.from_snode snode w = (.error .null_prog, w) := by
  unfold Texture.from_snode
  simp only [h]

theorem from_ndarray_of_prog (t : Texture) (prog : Program) (ndarray : Ndarray) (w : World)
    (h : t.prog_ = some prog) :
    t.from_ndarray ndarray w =
      (.ok (),
       { w with
          trace := w.trace ++
            [ .flush prog.id ⟨w.next_semaphore⟩,
              .new_command_list ⟨prog.graphics_device.id⟩ ⟨w.next_cmdlist⟩,
              .buffer_barrier ⟨w.next_cmdlist⟩ (.alloc ndarray.ndarray_alloc_),
              .image_transition ⟨w.next_cmdlist⟩ t.texture_alloc_ .undefined .transfer_dst,
              .buffer_to_image ⟨w.next_cmdlist⟩ t.texture_alloc_
                { ndarray.ndarray_alloc_ with offset := 0 } .transfer_dst
                { buffer_row_length := ndarray.shape_at 0
                  buffer_image_height := ndarray.shape_at 1
                  image_mip_level := 0
                  image_extent := { x := t.width_, y := t.height_, z := t.depth_ } },
              .submit_synced ⟨prog.graphics_device.id⟩ ⟨w.next_cmdlist⟩ [⟨w.next_semaphore⟩] ]
          next_semaphore := w.next_semaphore + 1
          next_cmdlist := w.next_cmdlist + 1 }) := by
  unfold Texture.from_ndarray
  simp [h, Program.flush, Stream.new_command_list, CommandList.buffer_barrier,
    CommandList.image_transition, CommandList.buffer_to_image, Stream.submit_synced,
    World.log, Program.get_graphics_device, GraphicsDevice.get_compute_stream,
    DeviceAllocation.get_ptr]

theorem from_snode_of_sparse (t : Texture) (prog : Program) (snode : SNode) (w : World)
    (h : t.prog_ = some prog) (hs : snode.is_path_all_dense = false) :
    t.from_snode snode w =
      (.error .assert_is_path_all_dense,
       { w with
          trace := w.trace ++ [.flush prog.id ⟨w.next_semaphore⟩]
          next_semaphore := w.next_semaphore + 1 }) := by
  unfold Texture.from_snode
  simp [h, hs, Program.flush, World.log]

theorem from_snode_of_dense (t : Texture) (prog : Program) (snode : SNode) (w : World)
    (h : t.prog_ = some prog) (hs : snode.is_path_all_dense = true) :
    t.from_snode snode w =
      (.ok (),
       { w with
          trace := w.trace ++
            [ .flush prog.id ⟨w.next_semaphore⟩,
              .get_snode_tree_device_ptr prog.id snode.parent.parent.snode_tree_id_,
              .get_field_in_tree_offset prog.id snode.parent.parent.snode_tree_id_ snode.id,
              .new_command_list ⟨prog.graphics_device.id⟩ ⟨w.next_cmdlist⟩,
              .buffer_barrier ⟨w.next_cmdlist⟩ (.ptr
                { (w.snode_tree_device_ptr prog.id
                    snode.parent.parent.snode_tree_id_).toDeviceAllocation with
                  offset := w.field_in_tree_offset prog.id
                    snode.parent.parent.snode_tree_id_ snode.id }),
              .image_transition ⟨w.next_cmdlist⟩ t.texture_alloc_ .undefined .transfer_dst,
              .buffer_to_image ⟨w.next_cmdlist⟩ t.texture_alloc_
                { (w.snode_tree_device_ptr prog.id
                    snode.parent.parent.snode_tree_id_).toDeviceAllocation with
                  offset := w.field_in_tree_offset prog.id
                    snode.parent.parent.snode_tree_id_ snode.id }
                .transfer_dst
                { buffer_row_length := snode.shape_along_axis 0
                  buffer_image_height := snode.shape_along_axis 1
                  image_mip_level := 0
                  image_extent := { x := t.width_, y := t.height_, z := t.depth_ } },
              .submit_synced ⟨prog.graphics_device.id⟩ ⟨w.next_cmdlist⟩ [⟨w.next_semaphore⟩] ]
          next_semaphore := w.next_semaphore + 1
          next_cmdlist := w.next_cmdlist + 1 }) := by
  unfold Texture.from_snode
  simp [h, hs, get_device_ptr, Program.flush, Stream.new_command_list,
    CommandList.buffer_barrier, CommandList.image_transition, CommandList.buffer_to_image,
    Stream.submit_synced, World.log, Program.get_graphics_device,
    GraphicsDevice.get_compute_stream, DeviceAllocation.get_ptr,
    Program.get_snode_tree_device_ptr, Program.get_field_in_tree_offset,
    SNodeRoot.get_snode_tree_id]

/-! ## The supply of command lists -/

theorem cmdlists_known_initial : World.initial.cmdlists_known := by
  intro e he
  exact absurd he (List.not_mem_nil e)

theorem cmdlists_known_of_append {w w1 : World} {evs : List Event}
    (hk : w.cmdlists_known) (htr : w1.trace = w.trace ++ evs)
    (hle : w.next_cmdlist ≤ w1.next_cmdlist)
    (hevs : ∀ e ∈ evs, ∀ c, e.cmdlist? = some c → c.id < w1.next_cmdlist) :
    w1.cmdlists_known := by
  intro e he c hc
  rw [htr, List.mem_append] at he
  rcases he with he | he
  · exact Nat.lt_of_lt_of_le (hk e he c hc) hle
  · exact hevs e he c hc

theorem from_ndarray_keeps_cmdlists_known (t : Texture) (ndarray : Ndarray) (w : World)
    (hk : w.cmdlists_known) : (t.from_ndarray ndarray w).2.cmdlists_known := by
  cases hp : t.prog_ with
  | none =>
    rw [from_ndarray_of_null t ndarray w hp]
    exact hk
  | some prog =>
    rw [from_ndarray_of_prog t prog ndarray w hp]
    refine cmdlists_known_of_append hk rfl (Nat.le_succ _) ?_
    intro e he c hc
    simp only [List.mem_cons, List.mem_singleton, List.not_mem_nil, or_false] at he
    rcases he with rfl | rfl | rfl | rfl | rfl | rfl <;>
      simp only [Event.cmdlist?, Option.some.injEq, reduceCtorEq] at hc <;>
      subst hc <;> exact Nat.lt_succ_self _

theorem from_snode_keeps_cmdlists_known (t : Texture) (snode : SNode) (w : World)
    (hk : w.cmdlists_known) : (t.from_snode snode w).2.cmdlists_known := by
  cases hp : t.prog_ with
  | none =>
    rw [from_snode_of_null t snode w hp]
    exact hk
  | some prog =>
    cases hs : snode.is_path_all_dense with
    | false =>
      rw [from_snode_of_sparse t prog snode w hp hs]
      refine cmdlists_known_of_append hk rfl (Nat.le_refl _) ?_
      intro e he c hc
      simp only [List.mem_singleton] at he
      subst he
      simp [Event.cmdlist?] at hc
    | true =>
      rw [from_snode_of_dense t prog snode w hp hs]
      refine cmdlists_known_of_append hk rfl (Nat.le_succ _) ?_
      intro e he c hc
      simp only [List.mem_cons, List.mem_singleton, List.not_mem_nil, or_false] at he
      rcases he with rfl | rfl | rfl | rfl | rfl | rfl | rfl | rfl <;>
        simp only [Event.cmdlist?, Option.some.injEq, reduceCtorEq] at hc <;>
        subst hc <;> exact Nat.lt_succ_self _

/-! ## The format table -/

/-- C1: `Texture::get_format` is exactly the table.  The thirteen legal
(kind, channel count) pairs give their formats; a supported kind with any
other channel count stops with "Invalid texture channels", and any other kind
stops with "Invalid texture dtype", whatever the channel count. -/
theorem get_format_is_table :
    (Texture.get_format .f16 1 = .ok .r16f ∧
     Texture.get_format .f16 2 = .ok .rg16f ∧
     Texture.get_format .f16 4 = .ok .rgba16f) ∧
    (Texture.get_format .u16 1 = .ok .r16 ∧
     Texture.get_format .u16 2 = .ok .rg16 ∧
     Texture.get_format .u16 4 = .ok .rgba16) ∧
    (Texture.get_format .u8 1 = .ok .r8 ∧
     Texture.get_format .u8 2 = .ok .rg8 ∧
     Texture.get_format .u8 4 = .ok .rgba8) ∧
    (Texture.get_format .f32 1 = .ok .r32f ∧
     Texture.get_format .f32 2 = .ok .rg32f ∧
     Texture.get_format .f32 3 = .ok .rgb32f ∧
     Texture.get_format .f32 4 = .ok .rgba32f) ∧
    (∀ (type : DataType) (n : Int),
      (type = .f16 ∨ type = .u16 ∨ type = .u8) → ¬ (n = 1 ∨ n = 2 ∨ n = 4) →
        Texture.get_format type n = .error .invalid_texture_channels) ∧
    (∀ n : Int, ¬ (n = 1 ∨ n = 2 ∨ n = 3 ∨ n = 4) →
        Texture.get_format .f32 n = .error .invalid_texture_channels) ∧
    (∀ (type : DataType) (n : Int),
      type ≠ .f16 → type ≠ .u16 → type ≠ .u8 → type ≠ .f32 →
        Texture.get_format type n = .error .invalid_texture_dtype) := by
  refine ⟨⟨rfl, rfl, rfl⟩, ⟨rfl, rfl, rfl⟩, ⟨rfl, rfl, rfl⟩, ⟨rfl, rfl, rfl, rfl⟩, ?_, ?_, ?_⟩
  · intro type n ht hn
    unfold Texture.get_format
    rcases ht with rfl | rfl | rfl <;> simp <;> split_ifs <;> simp_all
  · intro n hn
    unfold Texture.get_format
    simp
    split_ifs <;> simp_all
  · intro type n h1 h2 h3 h4
    simp [Texture.get_format, h1, h2, h3, h4]

/-- C1, at concrete inputs: three channels of 16-bit float, zero and five
channels of 32-bit float, and a kind outside the table are all rejected. -/
theorem get_format_is_table_witness :
    Texture.get_format .f16 3 = .error .invalid_texture_channels ∧
    Texture.get_format .f32 0 = .error .invalid_texture_channels ∧
    Texture.get_format .f32 5 = .error .invalid_texture_channels ∧
    Texture.get_format (.other 0) 1 = .error .invalid_texture_dtype :=
  ⟨get_format_is_table.2.2.2.2.1 .f16 3 (Or.inl rfl) (by decide),
   get_format_is_table.2.2.2.2.2.1 0 (by decide),
   get_format_is_table.2.2.2.2.2.1 5 (by decide),
   get_format_is_table.2.2.2.2.2.2 (.other 0) 1 (by decide) (by decide) (by decide) (by decide)⟩

/-! ## Construction -/

/-- C2: a channel count below 1 or above 4 makes both constructors stop
fatally, whatever the kind and the extents: the owning constructor on its
assertion, with nothing asked of the device, and the wrapping constructor
inside `get_format`. -/
theorem construction_rejects_channel_count (prog : Program) (devalloc : DeviceAllocation)
    (type : DataType) (n width height depth : Int) (w : World) (hn : n < 1 ∨ n > 4) :
    Texture.mk_owning prog type n width height depth w = (.error .assert_num_channels, w) ∧
    (Texture.mk_wrapping devalloc type n width height depth = .error .invalid_texture_channels ∨
     Texture.mk_wrapping devalloc type n width height depth = .error .invalid_texture_dtype) := by
  have hn2 : ¬ (0 < n ∧ n ≤ 4) := by omega
  constructor
  · unfold Texture.mk_owning
    simp only [gt_iff_lt, hn2, not_false_eq_true, if_true]
  · unfold Texture.mk_wrapping
    rcases get_format_error_of_channels type n hn2 with h | h <;> simp [h]

/-- C2, at concrete inputs: five channels of 32-bit float and zero channels
of an unsupported kind. -/
theorem construction_rejects_channel_count_witness :
    (Texture.mk_owning Program.sample .f32 5 64 64 1 World.initial
        = (.error .assert_num_channels, World.initial) ∧
     (Texture.mk_wrapping ⟨0, 7⟩ .f32 5 64 64 1 = .error .invalid_texture_channels ∨
      Texture.mk_wrapping ⟨0, 7⟩ .f32 5 64 64 1 = .error .invalid_texture_dtype)) ∧
    (Texture.mk_owning Program.sample (.other 3) 0 64 64 1 World.initial
        = (.error .assert_num_channels, World.initial) ∧
     (Texture.mk_wrapping ⟨0, 7⟩ (.other 3) 0 64 64 1 = .error .invalid_texture_channels ∨
      Texture.mk_wrapping ⟨0, 7⟩ (.other 3) 0 64 64 1 = .error .invalid_texture_dtype)) :=
  ⟨construction_rejects_channel_count Program.sample ⟨0, 7⟩ .f32 5 64 64 1 World.initial
      (Or.inr (by decide)),
   construction_rejects_channel_count Program.sample ⟨0, 7⟩ (.other 3) 0 64 64 1 World.initial
      (Or.inl (by decide))⟩

/-- C7: for a legal (kind, channel count) pair the owning constructor makes
exactly one call on the device, `create_image`, with dimension 3-D when
`depth > 1` and 2-D otherwise, the format of `get_format`, the extents
(width, height, depth) and the initial layout `undefined`; when the device
returns a handle, the Texture holds that handle as its image and that format
as its format. -/
theorem owning_constructor_creates_image (prog : Program) (type : DataType)
    (n width height depth : Int) (w : World) (fmt : BufferFormat)
    (hfmt : Texture.get_format type n = .ok fmt) :
    ∃ returned : Option DeviceAllocation,
      (Texture.mk_owning prog type n width height depth w).2.trace =
        w.trace ++ [.create_image prog.get_graphics_device.id
          { dimension := if depth > 1 then .d3D else .d2D
            format := fmt
            x := width
            y := height
            z := depth
            initial_layout := .undefined } returned] ∧
      (∀ img, returned = some img →
        (Texture.mk_owning prog type n width height depth w).1 =
          .ok { texture_alloc_ := img
                dtype_ := type
                num_channels_ := n
                width_ := width
                height_ := height
                depth_ := depth
                prog_ := some prog
                format_ := fmt }) ∧
      (returned = none →
        (Texture.mk_owning prog type n width height depth w).1 = .error .create_image_failed) := by
  rw [mk_owning_of_format prog type n width height depth w fmt hfmt]
  by_cases hs : w.image_supported prog.graphics_device.id
      (Texture.img_params fmt width height depth) = true
  · refine ⟨some ⟨prog.graphics_device.id, w.next_alloc⟩, ?_, ?_, ?_⟩
    · simp only [hs, if_true]; rfl
    · intro img himg
      simp only [Option.some.injEq] at himg
      simp only [hs, if_true, himg]
    · intro h; simp at h
  · refine ⟨none, ?_, ?_, ?_⟩
    · simp only [hs]; rfl
    · intro img himg; simp at himg
    · intro _; simp only [hs]; rfl

/-- C7, at concrete inputs: a 64 x 64 x 1 texture of four 32-bit floats asks
for a 2-D image, and with depth 8 for a 3-D image. -/
theorem owning_constructor_creates_image_witness :
    (∃ returned : Option DeviceAllocation,
      (Texture.mk_owning Program.sample .f32 4 64 64 1 World.initial).2.trace =
        [] ++ [.create_image 0
          { dimension := .d2D, format := .rgba32f, x := 64, y := 64, z := 1,
            initial_layout := .undefined } returned] ∧
      (∀ img, returned = some img →
        (Texture.mk_owning Program.sample .f32 4 64 64 1 World.initial).1 =
          .ok { texture_alloc_ := img, dtype_ := .f32, num_channels_ := 4, width_ := 64,
                height_ := 64, depth_ := 1, prog_ := some Program.sample,
                format_ := .rgba32f }) ∧
      (returned = none →
        (Texture.mk_owning Program.sample .f32 4 64 64 1 World.initial).1
          = .error .create_image_failed)) ∧
    (∃ returned : Option DeviceAllocation,
      (Texture.mk_owning Program.sample .f32 4 64 64 8 World.initial).2.trace =
        [] ++ [.create_image 0
          { dimension := .d3D, format := .rgba32f, x := 64, y := 64, z := 8,
            initial_layout := .undefined } returned] ∧
      (∀ img, returned = some img →
        (Texture.mk_owning Program.sample .f32 4 64 64 8 World.initial).1 =
          .ok { texture_alloc_ := img, dtype_ := .f32, num_channels_ := 4, width_ := 64,
                height_ := 64, depth_ := 8, prog_ := some Program.sample,
                format_ := .rgba32f }) ∧
      (returned = none →
        (Texture.mk_owning Program.sample .f32 4 64 64 8 World.initial).1
          = .error .create_image_failed)) :=
  ⟨owning_constructor_creates_image Program.sample .f32 4 64 64 1 World.initial .rgba32f rfl,
   owning_constructor_creates_image Program.sample .f32 4 64 64 8 World.initial .rgba32f rfl⟩

/-- C9: when the owning constructor meets a channel count outside [1,4] or a
pair that `get_format` rejects, it stops on the assertion or on the error of
`get_format` and leaves the world as it found it: no `create_image` call was
made and no image handle was taken. -/
theorem failed_owning_construction_allocates_nothing (prog : Program) (type : DataType)
    (n width height depth : Int) (w : World)
    (h : ¬ (0 < n ∧ n ≤ 4) ∨ ∃ e, Texture.get_format type n = .error e) :
    Texture.mk_owning prog type n width height depth w = (.error .assert_num_channels, w) ∨
    Texture.mk_owning prog type n width height depth w = (.error .invalid_texture_channels, w) ∨
    Texture.mk_owning prog type n width height depth w = (.error .invalid_texture_dtype, w) := by
  by_cases hn : 0 < n ∧ n ≤ 4
  · rcases h with h | ⟨e, he⟩
    · exact absurd hn h
    · rw [mk_owning_of_format_error prog type n width height depth w e hn he]
      rcases get_format_error_cases he with rfl | rfl
      · exact Or.inr (Or.inl rfl)
      · exact Or.inr (Or.inr rfl)
  · exact Or.inl (mk_owning_of_bad_channels prog type n width height depth w hn)

/-- C9, at concrete inputs: three channels of 8-bit unsigned int pass the
assertion and are rejected by `get_format`; the world is untouched. -/
theorem failed_owning_construction_allocates_nothing_witness :
    Texture.mk_owning Program.sample .u8 3 64 64 1 World.initial
      = (.error .assert_num_channels, World.initial) ∨
    Texture.mk_owning Program.sample .u8 3 64 64 1 World.initial
      = (.error .invalid_texture_channels, World.initial) ∨
    Texture.mk_owning Program.sample .u8 3 64 64 1 World.initial
      = (.error .invalid_texture_dtype, World.initial) :=
  failed_owning_construction_allocates_nothing Program.sample .u8 3 64 64 1 World.initial
    (Or.inr ⟨.invalid_texture_channels, rfl⟩)

/-- C8, as stated, fails: the wrapping constructor accepts a width, height
and depth of zero, so a successfully constructed Texture need not satisfy the
data-model invariant. -/
theorem constructed_texture_invariant_fails :
    ∃ t, Texture.mk_wrapping ⟨0, 7⟩ .f32 1 0 0 0 = .ok t ∧ ¬ t.invariant :=
  ⟨_, rfl, fun h => absurd h.2.2.1 (by decide)⟩

/-- C8, amended: a Texture whose construction succeeds, through either
constructor, has a channel count in [1,4] and a (kind, channel count) pair
that `get_format` maps to its stored format; its kind, channel count, width,
height and depth are the constructor arguments as given. -/
theorem constructed_texture_format_invariant :
    (∀ (prog : Program) (type : DataType) (n width height depth : Int) (w w1 : World)
        (t : Texture),
      Texture.mk_owning prog type n width height depth w = (.ok t, w1) →
        (1 ≤ t.num_channels_ ∧ t.num_channels_ ≤ 4) ∧
        Texture.get_format t.dtype_ t.num_channels_ = .ok t.format_ ∧
        t.dtype_ = type ∧ t.num_channels_ = n ∧
        t.width_ = width ∧ t.height_ = height ∧ t.depth_ = depth) ∧
    (∀ (devalloc : DeviceAllocation) (type : DataType) (n width height depth : Int)
        (t : Texture),
      Texture.mk_wrapping devalloc type n width height depth = .ok t →
        (1 ≤ t.num_channels_ ∧ t.num_channels_ ≤ 4) ∧
        Texture.get_format t.dtype_ t.num_channels_ = .ok t.format_ ∧
        t.dtype_ = type ∧ t.num_channels_ = n ∧
        t.width_ = width ∧ t.height_ = height ∧ t.depth_ = depth) := by
  constructor
  · intro prog type n width height depth w w1 t h
    obtain ⟨fmt, hfmt, -, rfl, -⟩ := mk_owning_ok_inv h
    have hn := get_format_ok_channels hfmt
    exact ⟨⟨by show 1 ≤ n; omega, hn.2⟩, hfmt, rfl, rfl, rfl, rfl, rfl⟩
  · intro devalloc type n width height depth t h
    obtain ⟨fmt, hfmt, rfl⟩ := mk_wrapping_ok_inv h
    have hn := get_format_ok_channels hfmt
    exact ⟨⟨by show 1 ≤ n; omega, hn.2⟩, hfmt, rfl, rfl, rfl, rfl, rfl⟩

/-- C8 amended, at concrete inputs: an owned 64 x 64 x 1 texture of four
32-bit floats and a wrapped 0 x 0 x 0 texture of one 32-bit float. -/
theorem constructed_texture_format_invariant_witness :
    ((1 ≤ Texture.sample_owned.num_channels_ ∧ Texture.sample_owned.num_channels_ ≤ 4) ∧
      Texture.get_format Texture.sample_owned.dtype_ Texture.sample_owned.num_channels_
        = .ok Texture.sample_owned.format_ ∧
      Texture.sample_owned.dtype_ = .f32 ∧ Texture.sample_owned.num_channels_ = 4 ∧
      Texture.sample_owned.width_ = 64 ∧ Texture.sample_owned.height_ = 64 ∧
      Texture.sample_owned.depth_ = 1) ∧
    (∃ t, Texture.mk_wrapping ⟨0, 7⟩ .f32 1 0 0 0 = .ok t ∧
      (1 ≤ t.num_channels_ ∧ t.num_channels_ ≤ 4) ∧
      Texture.get_format t.dtype_ t.num_channels_ = .ok t.format_ ∧
      t.width_ = 0 ∧ t.height_ = 0 ∧ t.depth_ = 0) :=
  ⟨constructed_texture_format_invariant.1 Program.sample .f32 4 64 64 1 { World.initial with next_alloc := 7 }
      _ Texture.sample_owned rfl,
   ⟨_, rfl,
    (constructed_texture_format_invariant.2 ⟨0, 7⟩ .f32 1 0 0 0 _ rfl).1,
    (constructed_texture_format_invariant.2 ⟨0, 7⟩ .f32 1 0 0 0 _ rfl).2.1,
    (constructed_texture_format_invariant.2 ⟨0, 7⟩ .f32 1 0 0 0 _ rfl).2.2.2.2⟩⟩

/-! ## Destruction -/

/-- C6: a Texture built by the owning constructor holds the handle returned
by the one `create_image` call of its construction, and its destructor makes
exactly one call, `destroy_image` on that handle, on the device of its
program; the destructor of a Texture built by the wrapping constructor makes
no call at all. -/
theorem destructor_destroys_owned_image_once :
    (∀ (prog : Program) (type : DataType) (n width height depth : Int) (w w1 : World)
        (t : Texture),
      Texture.mk_owning prog type n width height depth w = (.ok t, w1) →
        (∃ params, w1.trace =
          w.trace ++ [.create_image prog.get_graphics_device.id params (some t.texture_alloc_)]) ∧
        (∀ w2 : World, (t.destructor w2).trace =
          w2.trace ++ [.destroy_image prog.get_graphics_device.id t.texture_alloc_])) ∧
    (∀ (devalloc : DeviceAllocation) (type : DataType) (n width height depth : Int)
        (t : Texture),
      Texture.mk_wrapping devalloc type n width height depth = .ok t →
        ∀ w2 : World, t.destructor w2 = w2) := by
  constructor
  · intro prog type n width height depth w w1 t h
    obtain ⟨fmt, -, -, rfl, hw1⟩ := mk_owning_ok_inv h
    exact ⟨⟨_, hw1⟩, fun w2 => rfl⟩
  · intro devalloc type n width height depth t h
    obtain ⟨fmt, -, rfl⟩ := mk_wrapping_ok_inv h
    exact fun w2 => rfl

/-- C6, at concrete inputs: an owned and a wrapped 64 x 64 x 1 texture of
four 32-bit floats, destroyed in the world the construction left. -/
theorem destructor_destroys_owned_image_once_witness :
    (∃ t w1, Texture.mk_owning Program.sample .f32 4 64 64 1 World.initial = (.ok t, w1) ∧
      (t.destructor w1).trace = w1.trace ++ [.destroy_image 0 ⟨0, 0⟩]) ∧
    (∃ t, Texture.mk_wrapping ⟨0, 7⟩ .f32 4 64 64 1 = .ok t ∧
      t.destructor World.initial = World.initial) :=
  ⟨⟨_, _, rfl,
    (destructor_destroys_owned_image_once.1 Program.sample .f32 4 64 64 1 World.initial
      _ _ rfl).2 _⟩,
   ⟨_, rfl,
    destructor_destroys_owned_image_once.2 ⟨0, 7⟩ .f32 4 64 64 1 _ rfl World.initial⟩⟩

/-! ## Transfers -/

/-- C3, as stated, fails: a Texture built by the wrapping constructor has no
program; `from_ndarray` on it stops before anything is recorded. -/
theorem transfer_on_wrapped_texture_records_nothing :
    ∃ t, Texture.mk_wrapping ⟨0, 7⟩ .f32 4 64 64 1 = .ok t ∧
      (t.from_ndarray Ndarray.sample World.initial).1 = .error .null_prog ∧
      (t.from_ndarray Ndarray.sample World.initial).2.trace = [] :=
  ⟨_, rfl, rfl, rfl⟩

/-- C3, amended: on a Texture that holds a program, one call of
`from_ndarray`, and one call of `from_snode` on a field whose path is all
dense, completes and makes exactly the calls listed: after the flush (and,
for a field, the two address lookups) a new command list of the compute
stream is created and exactly three operations are recorded on it, in this
order: `buffer_barrier` on the source, `image_transition` of the texture
image from `undefined` to `transfer_dst`, and `buffer_to_image` into the
texture image from the source, with the extent (width_, height_, depth_) of
the Texture, the source's sizes along its first two dimensions as row length
and image height, and mip level 0.  The source is the array's allocation, at
offset 0 for the copy, or the field's resolved device pointer.  No earlier
event of a well-kept world mentions the new command list. -/
theorem transfer_records_three_operations (t : Texture) (prog : Program) (w : World)
    (hprog : t.prog_ = some prog) :
    (∀ ndarray : Ndarray,
      (t.from_ndarray ndarray w).1 = .ok () ∧
      (t.from_ndarray ndarray w).2.trace = w.trace ++
        [ .flush prog.id ⟨w.next_semaphore⟩,
          .new_command_list prog.get_graphics_device.get_compute_stream ⟨w.next_cmdlist⟩,
          .buffer_barrier ⟨w.next_cmdlist⟩ (.alloc ndarray.ndarray_alloc_),
          .image_transition ⟨w.next_cmdlist⟩ t.texture_alloc_ .undefined .transfer_dst,
          .buffer_to_image ⟨w.next_cmdlist⟩ t.texture_alloc_
            (ndarray.ndarray_alloc_.get_ptr 0) .transfer_dst
            { buffer_row_length := ndarray.shape_at 0
              buffer_image_height := ndarray.shape_at 1
              image_mip_level := 0
              image_extent := { x := t.width_, y := t.height_, z := t.depth_ } },
          .submit_synced prog.get_graphics_device.get_compute_stream ⟨w.next_cmdlist⟩
            [⟨w.next_semaphore⟩] ] ∧
      (ndarray.ndarray_alloc_.get_ptr 0).toDeviceAllocation = ndarray.ndarray_alloc_ ∧
      (ndarray.ndarray_alloc_.get_ptr 0).offset = 0) ∧
    (∀ snode : SNode, snode.is_path_all_dense = true →
      (t.from_snode snode w).1 = .ok () ∧
      (t.from_snode snode w).2.trace = w.trace ++
        [ .flush prog.id ⟨w.next_semaphore⟩,
          .get_snode_tree_device_ptr prog.id snode.parent.parent.get_snode_tree_id,
          .get_field_in_tree_offset prog.id snode.parent.parent.get_snode_tree_id snode.id,
          .new_command_list prog.get_graphics_device.get_compute_stream ⟨w.next_cmdlist⟩,
          .buffer_barrier ⟨w.next_cmdlist⟩
            (.ptr (get_device_ptr prog snode (prog.flush w).2).1),
          .image_transition ⟨w.next_cmdlist⟩ t.texture_alloc_ .undefined .transfer_dst,
          .buffer_to_image ⟨w.next_cmdlist⟩ t.texture_alloc_
            (get_device_ptr prog snode (prog.flush w).2).1 .transfer_dst
            { buffer_row_length := snode.shape_along_axis 0
              buffer_image_height := snode.shape_along_axis 1
              image_mip_level := 0
              image_extent := { x := t.width_, y := t.height_, z := t.depth_ } },
          .submit_synced prog.get_graphics_device.get_compute_stream ⟨w.next_cmdlist⟩
            [⟨w.next_semaphore⟩] ] ∧
      (get_device_ptr prog snode (prog.flush w).2).1 =
        (w.snode_tree_device_ptr prog.id
            snode.parent.parent.get_snode_tree_id).toDeviceAllocation.get_ptr
          (w.field_in_tree_offset prog.id snode.parent.parent.get_snode_tree_id snode.id)) ∧
    (w.cmdlists_known → ∀ e ∈ w.trace, e.cmdlist? ≠ some ⟨w.next_cmdlist⟩) := by
  refine ⟨fun ndarray => ?_, fun snode hs => ?_, fun hk e he hc => ?_⟩
  · rw [from_ndarray_of_prog t prog ndarray w hprog]
    exact ⟨rfl, rfl, rfl, rfl⟩
  · rw [from_snode_of_dense t prog snode w hprog hs]
    exact ⟨rfl, rfl, rfl⟩
  · exact absurd (hk e he _ hc) (Nat.lt_irrefl _)

/-- C3 amended, at concrete inputs: a 3 x 5 array and a dense 3 x 5 field
transferred into an owned 64 x 64 x 1 texture; the copy extent is that of the
texture. -/
theorem transfer_records_three_operations_witness :
    (Texture.sample_owned.from_ndarray Ndarray.sample World.initial).2.trace =
      [ .flush 1 ⟨0⟩,
        .new_command_list ⟨0⟩ ⟨0⟩,
        .buffer_barrier ⟨0⟩ (.alloc ⟨0, 2⟩),
        .image_transition ⟨0⟩ ⟨0, 7⟩ .undefined .transfer_dst,
        .buffer_to_image ⟨0⟩ ⟨0, 7⟩ ⟨⟨0, 2⟩, 0⟩ .transfer_dst ⟨3, 5, 0, ⟨64, 64, 1⟩⟩,
        .submit_synced ⟨0⟩ ⟨0⟩ [⟨0⟩] ] ∧
    (Texture.sample_owned.from_snode SNode.sample_dense World.initial).2.trace =
      [ .flush 1 ⟨0⟩,
        .get_snode_tree_device_ptr 1 0,
        .get_field_in_tree_offset 1 0 4,
        .new_command_list ⟨0⟩ ⟨0⟩,
        .buffer_barrier ⟨0⟩ (.ptr ⟨⟨0, 9⟩, 128⟩),
        .image_transition ⟨0⟩ ⟨0, 7⟩ .undefined .transfer_dst,
        .buffer_to_image ⟨0⟩ ⟨0, 7⟩ ⟨⟨0, 9⟩, 128⟩ .transfer_dst ⟨3, 5, 0, ⟨64, 64, 1⟩⟩,
        .submit_synced ⟨0⟩ ⟨0⟩ [⟨0⟩] ] ∧
    (∀ e ∈ World.initial.trace, e.cmdlist? ≠ some ⟨0⟩) :=
  ⟨((transfer_records_three_operations Texture.sample_owned Program.sample World.initial
      rfl).1 Ndarray.sample).2.1,
   ((transfer_records_three_operations Texture.sample_owned Program.sample World.initial
      rfl).2.1 SNode.sample_dense rfl).2.1,
   (transfer_records_three_operations Texture.sample_owned Program.sample World.initial
      rfl).2.2 (fun e he => absurd he (List.not_mem_nil e))⟩

/-- C4: a call of `from_ndarray` or `from_snode` that completes was made on a
Texture holding a program, and the calls it made are, in this order: one
flush of that program, which returns a token; for a field, the engine's
address lookups; the creation of a command list on the compute stream of the
program's device; three recorded operations on that list; and one
`submit_synced` on that stream, of that list, waiting for exactly that
token.  No other flush or submission is made. -/
theorem successful_transfer_flush_then_submit (t : Texture) (w : World) :
    (∀ ndarray : Ndarray, (t.from_ndarray ndarray w).1 = .ok () →
      (∃ (prog : Program) (semaphore : StreamSemaphore) (cmdlist : CommandList)
        (recorded : List Event),
        t.prog_ = some prog ∧
        (t.from_ndarray ndarray w).2.trace =
          w.trace ++ [.flush prog.id semaphore] ++
            [.new_command_list prog.get_graphics_device.get_compute_stream cmdlist] ++
            recorded ++
            [.submit_synced prog.get_graphics_device.get_compute_stream cmdlist [semaphore]] ∧
        recorded.length = 3 ∧ (∀ e ∈ recorded, e.records_on cmdlist = true)) ∧
      (w.calls_since (t.from_ndarray ndarray w).2).countP Event.is_flush = 1 ∧
      (w.calls_since (t.from_ndarray ndarray w).2).countP Event.is_submit_synced = 1) ∧
    (∀ snode : SNode, (t.from_snode snode w).1 = .ok () →
      (∃ (prog : Program) (semaphore : StreamSemaphore) (cmdlist : CommandList)
        (lookups recorded : List Event),
        t.prog_ = some prog ∧
        (t.from_snode snode w).2.trace =
          w.trace ++ [.flush prog.id semaphore] ++ lookups ++
            [.new_command_list prog.get_graphics_device.get_compute_stream cmdlist] ++
            recorded ++
            [.submit_synced prog.get_graphics_device.get_compute_stream cmdlist [semaphore]] ∧
        (∀ e ∈ lookups, e.is_lookup = true) ∧
        recorded.length = 3 ∧ (∀ e ∈ recorded, e.records_on cmdlist = true)) ∧
      (w.calls_since (t.from_snode snode w).2).countP Event.is_flush = 1 ∧
      (w.calls_since (t.from_snode snode w).2).countP Event.is_submit_synced = 1) := by
  constructor
  · intro ndarray hok
    cases hp : t.prog_ with
    | none =>
      rw [from_ndarray_of_null t ndarray w hp] at hok
      simp at hok
    | some prog =>
      rw [from_ndarray_of_prog t prog ndarray w hp]
      refine ⟨⟨prog, ⟨w.next_semaphore⟩, ⟨w.next_cmdlist⟩,
        [ .buffer_barrier ⟨w.next_cmdlist⟩ (.alloc ndarray.ndarray_alloc_),
          .image_transition ⟨w.next_cmdlist⟩ t.texture_alloc_ .undefined .transfer_dst,
          .buffer_to_image ⟨w.next_cmdlist⟩ t.texture_alloc_
            { ndarray.ndarray_alloc_ with offset := 0 } .transfer_dst
            { buffer_row_length := ndarray.shape_at 0
              buffer_image_height := ndarray.shape_at 1
              image_mip_level := 0
              image_extent := { x := t.width_, y := t.height_, z := t.depth_ } } ],
        rfl, ?_, rfl, ?_⟩, ?_, ?_⟩
      · simp [Program.get_graphics_device, GraphicsDevice.get_compute_stream]
      · intro e he
        simp only [List.mem_cons, List.mem_singleton, List.not_mem_nil, or_false] at he
        rcases he with rfl | rfl | rfl <;> simp [Event.records_on]
      · simp [World.calls_since, Event.is_flush]
      · simp [World.calls_since, Event.is_submit_synced]
  · intro snode hok
    cases hp : t.prog_ with
    | none =>
      rw [from_snode_of_null t snode w hp] at hok
      simp at hok
    | some prog =>
      cases hs : snode.is_path_all_dense with
      | false =>
        rw [from_snode_of_sparse t prog snode w hp hs] at hok
        simp at hok
      | true =>
        rw [from_snode_of_dense t prog snode w hp hs]
        refine ⟨⟨prog, ⟨w.next_semaphore⟩, ⟨w.next_cmdlist⟩,
          [ .get_snode_tree_device_ptr prog.id snode.parent.parent.snode_tree_id_,
            .get_field_in_tree_offset prog.id snode.parent.parent.snode_tree_id_ snode.id ],
          [ .buffer_barrier ⟨w.next_cmdlist⟩ (.ptr
              { (w.snode_tree_device_ptr prog.id
                  snode.parent.parent.snode_tree_id_).toDeviceAllocation with
                offset := w.field_in_tree_offset prog.id
                  snode.parent.parent.snode_tree_id_ snode.id }),
            .image_transition ⟨w.next_cmdlist⟩ t.texture_alloc_ .undefined .transfer_dst,
            .buffer_to_image ⟨w.next_cmdlist⟩ t.texture_alloc_
              { (w.snode_tree_device_ptr prog.id
                  snode.parent.parent.snode_tree_id_).toDeviceAllocation with
                offset := w.field_in_tree_offset prog.id
                  snode.parent.parent.snode_tree_id_ snode.id }
              .transfer_dst
              { buffer_row_length := snode.shape_along_axis 0
                buffer_image_height := snode.shape_along_axis 1
                image_mip_level := 0
                image_extent := { x := t.width_, y := t.height_, z := t.depth_ } } ],
          rfl, ?_, ?_, rfl, ?_⟩, ?_, ?_⟩
        · simp [Program.get_graphics_device, GraphicsDevice.get_compute_stream]
        · intro e he
          simp only [List.mem_cons, List.mem_singleton, List.not_mem_nil, or_false] at he
          rcases he with rfl | rfl <;> rfl
        · intro e he
          simp only [List.mem_cons, List.mem_singleton, List.not_mem_nil, or_false] at he
          rcases he with rfl | rfl | rfl <;> simp [Event.records_on]
        · simp [World.calls_since, Event.is_flush]
        · simp [World.calls_since, Event.is_submit_synced]

/-- C4, at concrete inputs: the transfers of a 3 x 5 array and of a dense
3 x 5 field into an owned texture complete, so the statement applies to
them. -/
theorem successful_transfer_flush_then_submit_witness :
    ((Texture.sample_owned.from_ndarray Ndarray.sample World.initial).1 = .ok () ∧
      (World.initial.calls_since
        (Texture.sample_owned.from_ndarray Ndarray.sample World.initial).2).countP
          Event.is_flush = 1 ∧
      (World.initial.calls_since
        (Texture.sample_owned.from_ndarray Ndarray.sample World.initial).2).countP
          Event.is_submit_synced = 1) ∧
    ((Texture.sample_owned.from_snode SNode.sample_dense World.initial).1 = .ok () ∧
      (World.initial.calls_since
        (Texture.sample_owned.from_snode SNode.sample_dense World.initial).2).countP
          Event.is_flush = 1 ∧
      (World.initial.calls_since
        (Texture.sample_owned.from_snode SNode.sample_dense World.initial).2).countP
          Event.is_submit_synced = 1) :=
  ⟨⟨rfl, ((successful_transfer_flush_then_submit Texture.sample_owned World.initial).1
      Ndarray.sample rfl).2⟩,
   ⟨rfl, ((successful_transfer_flush_then_submit Texture.sample_owned World.initial).2
      SNode.sample_dense rfl).2⟩⟩

/-- C5: `from_snode` on a field whose path is not all dense stops fatally,
whatever the Texture.  The only call it can have made by then is the flush of
the Texture's program: no command list is created, no operation is recorded,
the field's device pointer is not looked up and nothing is submitted. -/
theorem from_snode_rejects_sparse_path (t : Texture) (snode : SNode) (w : World)
    (hs : snode.is_path_all_dense = false) :
    (∃ e, (t.from_snode snode w).1 = .error e) ∧
    ((t.from_snode snode w).2.trace = w.trace ∨
      ∃ prog : Program, t.prog_ = some prog ∧
        (t.from_snode snode w).1 = .error .assert_is_path_all_dense ∧
        (t.from_snode snode w).2.trace = w.trace ++ [.flush prog.id ⟨w.next_semaphore⟩]) ∧
    (t.from_snode snode w).2.next_cmdlist = w.next_cmdlist := by
  cases hp : t.prog_ with
  | none =>
    rw [from_snode_of_null t snode w hp]
    exact ⟨⟨_, rfl⟩, Or.inl rfl, rfl⟩
  | some prog =>
    rw [from_snode_of_sparse t prog snode w hp hs]
    exact ⟨⟨_, rfl⟩, Or.inr ⟨prog, rfl, rfl, rfl⟩, rfl⟩

/-- C5, at concrete inputs: a field with a sparse ancestor offered to an
owned texture. -/
theorem from_snode_rejects_sparse_path_witness :
    (Texture.sample_owned.from_snode SNode.sample_sparse World.initial).1
      = .error .assert_is_path_all_dense ∧
    (Texture.sample_owned.from_snode SNode.sample_sparse World.initial).2.trace
      = [.flush 1 ⟨0⟩] ∧
    (Texture.sample_owned.from_snode SNode.sample_sparse World.initial).2.next_cmdlist = 0 :=
  ⟨rfl, rfl,
   (from_snode_rejects_sparse_path Texture.sample_owned SNode.sample_sparse World.initial
      rfl).2.2⟩

/-- C10: only the owning constructor gives a Texture a program.  A Texture
built by the wrapping constructor has none, and on it `from_ndarray` and
`from_snode` stop at their first step, the flush through `prog_`, leaving the
world untouched: no command list, nothing recorded, nothing submitted.  A
transfer that completes was made on a Texture that holds a program. -/
theorem wrapped_texture_cannot_transfer :
    (∀ (prog : Program) (type : DataType) (n width height depth : Int) (w w1 : World)
        (t : Texture),
      Texture.mk_owning prog type n width height depth w = (.ok t, w1) →
        t.prog_ = some prog) ∧
    (∀ (devalloc : DeviceAllocation) (type : DataType) (n width height depth : Int)
        (t : Texture),
      Texture.mk_wrapping devalloc type n width height depth = .ok t →
        t.prog_ = none ∧
        (∀ (ndarray : Ndarray) (w : World),
          t.from_ndarray ndarray w = (.error .null_prog, w)) ∧
        (∀ (snode : SNode) (w : World),
          t.from_snode snode w = (.error .null_prog, w))) ∧
    (∀ (t : Texture) (ndarray : Ndarray) (w : World),
      (t.from_ndarray ndarray w).1 = .ok () → ∃ prog, t.prog_ = some prog) ∧
    (∀ (t : Texture) (snode : SNode) (w : World),
      (t.from_snode snode w).1 = .ok () → ∃ prog, t.prog_ = some prog) := by
  refine ⟨?_, ?_, ?_, ?_⟩
  · intro prog type n width height depth w w1 t h
    obtain ⟨fmt, -, -, rfl, -⟩ := mk_owning_ok_inv h
    rfl
  · intro devalloc type n width height depth t h
    obtain ⟨fmt, -, rfl⟩ := mk_wrapping_ok_inv h
    exact ⟨rfl, fun ndarray w => from_ndarray_of_null _ ndarray w rfl,
      fun snode w => from_snode_of_null _ snode w rfl⟩
  · intro t ndarray w hok
    cases hp : t.prog_ with
    | none =>
      rw [from_ndarray_of_null t ndarray w hp] at hok
      simp at hok
    | some prog => exact ⟨prog, rfl⟩
  · intro t snode w hok
    cases hp : t.prog_ with
    | none =>
      rw [from_snode_of_null t snode w hp] at hok
      simp at hok
    | some prog => exact ⟨prog, rfl⟩

/-- C10, at concrete inputs: a wrapped 64 x 64 x 1 texture of four 32-bit
floats refuses a 3 x 5 array and a dense field; an owned one takes the
array. -/
theorem wrapped_texture_cannot_transfer_witness :
    (∃ t, Texture.mk_wrapping ⟨0, 7⟩ .f32 4 64 64 1 = .ok t ∧
      t.prog_ = none ∧
      t.from_ndarray Ndarray.sample World.initial = (.error .null_prog, World.initial) ∧
      t.from_snode SNode.sample_dense World.initial = (.error .null_prog, World.initial)) ∧
    ((Texture.sample_owned.from_ndarray Ndarray.sample World.initial).1 = .ok () ∧
      ∃ prog, Texture.sample_owned.prog_ = some prog) :=
  ⟨⟨_, rfl,
    (wrapped_texture_cannot_transfer.2.1 ⟨0, 7⟩ .f32 4 64 64 1 _ rfl).1,
    (wrapped_texture_cannot_transfer.2.1 ⟨0, 7⟩ .f32 4 64 64 1 _ rfl).2.1
      Ndarray.sample World.initial,
    (wrapped_texture_cannot_transfer.2.1 ⟨0, 7⟩ .f32 4 64 64 1 _ rfl).2.2
      SNode.sample_dense World.initial⟩,
   ⟨rfl, wrapped_texture_cannot_transfer.2.2.1 Texture.sample_owned Ndarray.sample
      World.initial rfl⟩⟩

end taichi.lang
